import Mathlib

/-!
Shallow embedding of the RustDesk Unity FFI bridge
(`src/unity.rs` and `src/plugin/unity.rs`).

Modelling conventions:
* `usize` is modelled as `Nat`; the source targets 64-bit platforms, so
  `usize::MAX` is `2 ^ 64 - 1` and `usize::saturating_mul` clamps there.
* A cast `x as u32` is modelled as `x % 2 ^ 32` (Rust `as` truncates).
* A Rust `&str` is modelled as `String`; `CString::new` fails exactly when
  the string contains an interior NUL byte, i.e. (for valid UTF-8) when the
  character U+0000 occurs in the string.
* Function pointers handed in by the host are opaque; they are modelled by a
  type parameter `κ`.  A callback slot (`RwLock<Option<..>>`) is modelled by
  its contents, `Option κ`; a dispatch is modelled as a function returning an
  outcome value that records whether (and with which arguments) the callback
  was invoked, instead of performing the call.
* Collaborator functions that live outside the two source files
  (`super::load_plugin`, `plugins::handle_ui_event`, ...) are passed in as
  oracle parameters of type `String → Except String Unit` (the source type is
  `ResultType<()>` whose error renders to a display string).  Entry points
  additionally return the number of collaborator invocations they perform, so
  that "the collaborator is never called" is observable in the model.
* Frame pixel buffers cross the boundary as pointer plus length and their
  contents are never inspected by the bridge, so a buffer is modelled by its
  length alone.
-/

namespace RustdeskUnity

/-- Maximum value of `usize` on the 64-bit targets the source is built for. -/
def USIZE_MAX : Nat := 2 ^ 64 - 1

/-- Modulus used by a Rust `as u32` cast. -/
def U32_MOD : Nat := 2 ^ 32

/-- Embeds `width.saturating_mul(4)` from `src/unity.rs` line 64. -/
def saturatingMul4 (w : Nat) : Nat := min (w * 4) USIZE_MAX

/-- Embeds `CString::new` on a `&str`: fails exactly when the string contains
an interior NUL character; otherwise yields the same text. -/
def cstring_new (s : String) : Option String :=
  if s.toList.contains (Char.ofNat 0) then none else some s

/-- Embeds `scrap::ImageFormat`, restricted to the variants matched by
`image_format_to_u32` in `src/unity.rs` lines 85-91. -/
inductive ImageFormat
  | Raw
  | ABGR
  | ARGB
deriving DecidableEq

/-- Embeds `image_format_to_u32` from `src/unity.rs` lines 85-91. -/
def image_format_to_u32 : ImageFormat → Nat
  | .Raw => 0
  | .ABGR => 1
  | .ARGB => 2

/-- Reverse lookup table for `image_format_to_u32`, as the spec asks a test
to build; defined from the forward map in the source. -/
def u32_to_image_format : Nat → Option ImageFormat
  | 0 => some .Raw
  | 1 => some .ABGR
  | 2 => some .ARGB
  | _ => none

/-- Embeds the stride computation of `notify_video_frame`,
`src/unity.rs` lines 58-68: divide buffer length by height when the height is
positive, fall back to `width.saturating_mul(4)` when that quotient is zero,
then let a strictly larger caller hint win. -/
def deriveStride (height bufLen width stride_hint : Nat) : Nat :=
  let s0 := if height > 0 then bufLen / height else 0
  let s1 := if s0 = 0 then saturatingMul4 width else s0
  if stride_hint > s1 then stride_hint else s1

/-- Arguments handed to the registered video callback by `notify_video_frame`
(`src/unity.rs` lines 71-82).  `cb` is the function pointer that was invoked;
numeric fields carry the values after the `as u32` casts; `len` is the
`usize` buffer length, passed uncast. -/
structure VideoFrameArgs (κ : Type) where
  cb : κ
  peer_id : String
  display : Nat
  width : Nat
  height : Nat
  stride : Nat
  format : Nat
  len : Nat
deriving DecidableEq

/-- Observable outcome of one `notify_video_frame` call. -/
inductive VideoDispatchOutcome (κ : Type)
  | noCallback
  | badPeerId
  | invoked (args : VideoFrameArgs κ)
deriving DecidableEq

/-- Embeds `rustdesk_unity_register_video_frame_callback`
(`src/unity.rs` lines 24-30): overwrite the slot with the new value,
regardless of the previous contents. -/
def rustdesk_unity_register_video_frame_callback (callback slot : Option κ) :
    Option κ :=
  callback

/-- Embeds `notify_video_frame` from `src/unity.rs` lines 32-83: read the
slot, return silently when empty, abort when the peer id has no CString
encoding, otherwise derive the stride and invoke the callback with the
`as u32`-cast numeric arguments. -/
def notify_video_frame (slot : Option κ) (peer_id : String)
    (display width height stride_hint : Nat) (format : ImageFormat)
    (bufLen : Nat) : VideoDispatchOutcome κ :=
  match slot with
  | none => .noCallback
  | some cb =>
    match cstring_new peer_id with
    | none => .badPeerId
    | some c_peer_id =>
      .invoked
        { cb := cb
          peer_id := c_peer_id
          display := display % U32_MOD
          width := width % U32_MOD
          height := height % U32_MOD
          stride := deriveStride height bufLen width stride_hint % U32_MOD
          format := image_format_to_u32 format
          len := bufLen }

/-- Observable outcome of one `dispatch_event` call
(`src/plugin/unity.rs` lines 30-48).  The two dropped cases mirror the two
`log::warn` arms: when the event type has no CString encoding the first error
arm fires even if the payload is also bad. -/
inductive EventDispatchOutcome (κ : Type)
  | noCallback
  | droppedBadEventType
  | droppedBadPayload
  | invoked (cb : κ) (event_type payload : String)
deriving DecidableEq

/-- Embeds `rustdesk_unity_register_event_callback`
(`src/plugin/unity.rs` lines 56-60): overwrite the slot with the new value. -/
def rustdesk_unity_register_event_callback (callback slot : Option κ) :
    Option κ :=
  callback

/-- Embeds `dispatch_event` from `src/plugin/unity.rs` lines 30-48: when a
callback is registered, encode the event type and payload; invoke on double
success, otherwise log and drop (first arm wins when the event type fails). -/
def dispatch_event (slot : Option κ) (event_type payload : String) :
    EventDispatchOutcome κ :=
  match slot with
  | none => .noCallback
  | some cb =>
    match cstring_new event_type, cstring_new payload with
    | some et, some pl => .invoked cb et pl
    | none, _ => .droppedBadEventType
    | some _, none => .droppedBadPayload

/-- Modelled from the spec: `PluginReturn` is defined in the plugin module
root, which is not part of the excerpt.  Spec section 3 describes the result
value as a status code with a human-readable message, code 0 meaning success
with an empty message. -/
structure PluginReturn where
  code : Int
  msg : String
deriving DecidableEq

/-- Modelled from the spec: constructing a result value with the given code
and message (`PluginReturn::new`). -/
def PluginReturn.new (code : Int) (msg : String) : PluginReturn :=
  { code := code, msg := msg }

/-- Modelled from the spec: the success result, code 0 and empty message
(`PluginReturn::success`). -/
def PluginReturn.success : PluginReturn :=
  { code := 0, msg := "" }

/-- Modelled from the spec: `errno::ERR_CALLBACK_INVALID_ARGS`.  The numeric
value is fixed neither by the excerpt nor by the spec; the spec only requires
the error codes to be nonzero and to distinguish the two error kinds. -/
def ERR_CALLBACK_INVALID_ARGS : Int := 1

/-- Modelled from the spec: `errno::ERR_CALLBACK_FAILED`; see
`ERR_CALLBACK_INVALID_ARGS` for the choice of value. -/
def ERR_CALLBACK_FAILED : Int := 2

/-- A host-supplied C string argument.  Modelled from the spec: section 4.2
says `string_in` fails when the pointer is null or the bytes are not valid
text; byte-level UTF-8 validation is abstracted into the `invalid` tag, which
carries the display text of the decode error. -/
inductive CStrArg
  | null
  | invalid (err : String)
  | valid (s : String)
deriving DecidableEq

/-- Modelled from the spec: `cstr_to_string` decodes a host C string, failing
on a null pointer or invalid encoding (spec section 4.2). -/
def cstr_to_string : CStrArg → Except String String
  | .null => .error "null pointer"
  | .invalid err => .error err
  | .valid s => .ok s

/-- Embeds `make_error` from `src/plugin/unity.rs` lines 19-21. -/
def make_error (code : Int) (msg : String) : PluginReturn :=
  PluginReturn.new code msg

/-- Embeds `dispatch_from_result` from `src/plugin/unity.rs` lines 23-28:
success maps to the success result, an error maps to `ERR_CALLBACK_FAILED`
with the message `context ++ ": " ++ error text`. -/
def dispatch_from_result (result : Except String Unit) (context : String) :
    PluginReturn :=
  match result with
  | .ok _ => PluginReturn.success
  | .error err => make_error ERR_CALLBACK_FAILED (context ++ ": " ++ err)

/-- Embeds `rustdesk_unity_load_plugin` from `src/plugin/unity.rs`
lines 68-77.  `load` is the collaborator `super::load_plugin`; the second
component counts how many times the collaborator was invoked. -/
def rustdesk_unity_load_plugin (load : String → Except String Unit)
    (id : CStrArg) : PluginReturn × Nat :=
  match cstr_to_string id with
  | .ok id => (dispatch_from_result (load id) "Load plugin", 1)
  | .error err =>
    (make_error ERR_CALLBACK_INVALID_ARGS ("Invalid plugin id: " ++ err), 0)

/-- Embeds `rustdesk_unity_unload_plugin` from `src/plugin/unity.rs`
lines 79-88. -/
def rustdesk_unity_unload_plugin (unload : String → Except String Unit)
    (id : CStrArg) : PluginReturn × Nat :=
  match cstr_to_string id with
  | .ok id => (dispatch_from_result (unload id) "Unload plugin", 1)
  | .error err =>
    (make_error ERR_CALLBACK_INVALID_ARGS ("Invalid plugin id: " ++ err), 0)

/-- Embeds `rustdesk_unity_reload_plugin` from `src/plugin/unity.rs`
lines 90-99. -/
def rustdesk_unity_reload_plugin (reload : String → Except String Unit)
    (id : CStrArg) : PluginReturn × Nat :=
  match cstr_to_string id with
  | .ok id => (dispatch_from_result (reload id) "Reload plugin", 1)
  | .error err =>
    (make_error ERR_CALLBACK_INVALID_ARGS ("Invalid plugin id: " ++ err), 0)

/-- Embeds `get_id_and_peer` from `src/plugin/unity.rs` lines 50-54: decode
the id, then the peer, propagating the first failure. -/
def get_id_and_peer (id peer : CStrArg) : Except String (String × String) := do
  let id ← cstr_to_string id
  let peer ← cstr_to_string peer
  return (id, peer)

/-- Embeds `rustdesk_unity_handle_ui_event` from `src/plugin/unity.rs`
lines 101-122.  `handler` is the collaborator `plugins::handle_ui_event`;
the event buffer is a borrowed byte slice. -/
def rustdesk_unity_handle_ui_event
    (handler : String → String → List Nat → Except String Unit)
    (id peer : CStrArg) (event : List Nat) : PluginReturn × Nat :=
  match get_id_and_peer id peer with
  | .error err =>
    (make_error ERR_CALLBACK_INVALID_ARGS ("Invalid plugin arguments: " ++ err),
     0)
  | .ok (id, peer) =>
    (dispatch_from_result (handler id peer event) "Handle UI event", 1)

/-- Embeds `rustdesk_unity_handle_server_event` from `src/plugin/unity.rs`
lines 124-145. -/
def rustdesk_unity_handle_server_event
    (handler : String → String → List Nat → Except String Unit)
    (id peer : CStrArg) (event : List Nat) : PluginReturn × Nat :=
  match get_id_and_peer id peer with
  | .error err =>
    (make_error ERR_CALLBACK_INVALID_ARGS ("Invalid plugin arguments: " ++ err),
     0)
  | .ok (id, peer) =>
    (dispatch_from_result (handler id peer event) "Handle server event", 1)

/-- Embeds `rustdesk_unity_init_plugin_framework` from `src/plugin/unity.rs`
lines 62-66: run the collaborator `super::init` (an arbitrary state effect
with no failure channel) and return the success result unconditionally. -/
def rustdesk_unity_init_plugin_framework {σ : Type} (init : σ → σ) (s : σ) :
    σ × PluginReturn :=
  (init s, PluginReturn.success)

/-- Modelled from the spec: a plugin descriptor as stored by the collaborator
table `plugins::get_plugin_infos` (spec section 3), holding the fields that
`rustdesk_unity_get_plugins` projects out. -/
structure PluginInfo where
  desc : String
  path : String
  uninstalled : Bool
deriving DecidableEq

/-- A JSON scalar as used by the descriptor payload: the projected objects
hold only strings and booleans. -/
inductive JsonVal
  | str (s : String)
  | bool (b : Bool)
deriving DecidableEq

/-- Embeds the `json!` projection inside `rustdesk_unity_get_plugins`
(`src/plugin/unity.rs` lines 151-160): each descriptor becomes an object
with exactly the fields `desc`, `path` and `uninstalled`.  The field order
matches both the source text and the alphabetical order the `serde_json`
map uses. -/
def plugin_payload (infos : List PluginInfo) : List (List (String × JsonVal)) :=
  infos.map fun info =>
    [("desc", .str info.desc), ("path", .str info.path),
     ("uninstalled", .bool info.uninstalled)]

/-- JSON string escaping as performed by `serde_json`: escape the quote and
backslash, use the short escapes for the common control characters, and a
`\u00XX` escape for the remaining control characters. -/
def escapeChar (c : Char) : String :=
  if c = Char.ofNat 34 then "\\\""
  else if c = Char.ofNat 92 then "\\\\"
  else if c = Char.ofNat 8 then "\\b"
  else if c = Char.ofNat 9 then "\\t"
  else if c = Char.ofNat 10 then "\\n"
  else if c = Char.ofNat 12 then "\\f"
  else if c = Char.ofNat 13 then "\\r"
  else if c.toNat < 32 then
    "\\u00" ++ String.mk [Nat.digitChar (c.toNat / 16), Nat.digitChar (c.toNat % 16)]
  else String.singleton c

/-- Renders a JSON string literal with its surrounding quotes. -/
def jsonString (s : String) : String :=
  "\"" ++ String.join (s.toList.map escapeChar) ++ "\""

/-- Renders a JSON scalar. -/
def renderJsonVal : JsonVal → String
  | .str s => jsonString s
  | .bool true => "true"
  | .bool false => "false"

/-- Renders one `field: value` member of a JSON object. -/
def renderField (f : String × JsonVal) : String :=
  jsonString f.1 ++ ":" ++ renderJsonVal f.2

/-- Renders a JSON object from its field list. -/
def renderObj (fields : List (String × JsonVal)) : String :=
  "\x7b" ++ String.intercalate "," (fields.map renderField) ++ "\x7d"

/-- Embeds `serde_json::to_string` on the descriptor payload: a JSON array of
objects, compact separators, `[]` for the empty collection. -/
def serde_to_string (payload : List (List (String × JsonVal))) : String :=
  "[" ++ String.intercalate "," (payload.map renderObj) ++ "]"

/-- Embeds `rustdesk_unity_get_plugins` from `src/plugin/unity.rs`
lines 147-166: project the descriptor table, serialize, and fall back to the
literal `[]` when serialization fails.  `ser` abstracts
`serde_json::to_string`, whose fallible signature the source handles with
`unwrap_or_else`; its faithful instantiation is `some (serde_to_string p)`. -/
def rustdesk_unity_get_plugins (infos : List PluginInfo)
    (ser : List (List (String × JsonVal)) → Option String) : String :=
  match ser (plugin_payload infos) with
  | some json => json
  | none => "[]"

/-- Lock-relevant events emitted by one dispatch, in program order. -/
inductive BridgeEvent
  | acquireRead
  | releaseRead
  | invokeCallback
deriving DecidableEq

/-- Event trace of `notify_video_frame` (`src/unity.rs` lines 41-82) with
respect to its `RwLock` read guard.  The guard lives inside the block on
lines 41-44 that copies the slot out, so it is released before any callback
invocation; the callback then runs only when the slot was full and the peer
id encoded. -/
def notify_video_frame_events (slotFull peerOk : Bool) : List BridgeEvent :=
  [.acquireRead, .releaseRead] ++
    (if slotFull && peerOk then [.invokeCallback] else [])

/-- Event trace of `dispatch_event` (`src/plugin/unity.rs` lines 30-48) with
respect to its `RwLock` read guard.  The guard is the temporary produced by
the scrutinee `*EVENT_CALLBACK.read().unwrap()` of the `if let`; under the
temporary-scope rules of Rust edition 2021 (the edition this crate builds
with) a scrutinee temporary is dropped at the end of the whole `if let`
statement, so the guard is released only after the callback body runs. -/
def dispatch_event_events (slotFull encodeOk : Bool) : List BridgeEvent :=
  [.acquireRead] ++
    (if slotFull && encodeOk then [.invokeCallback] else []) ++ [.releaseRead]

/-- Checks that every callback invocation in a trace happens while no read
guard is held: scan the trace keeping the number of currently held guards,
and require it to be zero at each `invokeCallback`. -/
def invokesOutsideLock (trace : List BridgeEvent) : Bool :=
  (trace.foldl
    (fun st e =>
      match e with
      | .acquireRead => (st.1 + 1, st.2)
      | .releaseRead => (st.1 - 1, st.2)
      | .invokeCallback => (st.1, st.2 && decide (st.1 = 0)))
    ((0 : Nat), true)).2

/-- The stride value as the spec claim words it (its amended form): the
derived value is the quotient `bufLen / height` when the height and that
quotient are both nonzero, and otherwise `width * 4` saturated at the
`usize` maximum; a strictly larger hint overrides the derived value. -/
def claimedStride (height bufLen width stride_hint : Nat) : Nat :=
  let derived :=
    if height ≠ 0 ∧ bufLen / height ≠ 0 then bufLen / height
    else min (width * 4) USIZE_MAX
  if stride_hint > derived then stride_hint else derived

/-- The source stride computation agrees with the claim-worded form
everywhere. -/
theorem deriveStride_eq_claimedStride (height bufLen width hint : Nat) :
    deriveStride height bufLen width hint = claimedStride height bufLen width hint := by
  rcases Nat.eq_zero_or_pos height with h0 | hpos
  · subst h0
    simp [deriveStride, claimedStride, saturatingMul4]
  · by_cases hq : bufLen / height = 0
    · simp [deriveStride, claimedStride, saturatingMul4, hpos, hq, Nat.pos_iff_ne_zero.mp hpos]
    · simp [deriveStride, claimedStride, saturatingMul4, hpos, hq, Nat.pos_iff_ne_zero.mp hpos]

/-- C1 counterexample: the claim as stated fails twice.  With height 0,
width `2 ^ 62` and no hint, the source saturates `width * 4` at the `usize`
maximum instead of producing `width * 4`; and with height 1 and a buffer of
length `2 ^ 32`, the stride actually passed to the callback is the quotient
reduced modulo `2 ^ 32` (here 0), not the nonzero quotient itself. -/
theorem notify_video_frame_stride_counterexample :
    deriveStride 0 0 (2 ^ 62) 0 ≠ 2 ^ 62 * 4
  ∧ notify_video_frame (some ()) "peer" 0 0 1 0 ImageFormat.Raw (2 ^ 32) =
      .invoked ⟨(), "peer", 0, 0, 1, 0, 0, 2 ^ 32⟩
  ∧ (2 ^ 32 : Nat) / 1 ≠ 0 := by
  refine ⟨by decide, ?_, by decide⟩
  rfl

/-- C1 (amended): for every frame dispatched with a registered callback and
an encodable peer id, the stride passed to the callback is the derived
stride reduced modulo `2 ^ 32`, where the derived stride is
`bufLen / height` when the height and that quotient are nonzero, otherwise
`width * 4` saturated at the `usize` maximum, and the hint wins whenever it
is strictly larger; the three concrete spec examples hold. -/
theorem notify_video_frame_stride_spec (cb : Unit) (peer : String)
    (display width height stride_hint bufLen : Nat) (format : ImageFormat)
    (hpeer : cstring_new peer = some peer) :
    notify_video_frame (some cb) peer display width height stride_hint format bufLen =
      .invoked ⟨cb, peer, display % U32_MOD, width % U32_MOD, height % U32_MOD,
        claimedStride height bufLen width stride_hint % U32_MOD,
        image_format_to_u32 format, bufLen⟩
  ∧ deriveStride 100 40000 100 0 = 400
  ∧ deriveStride 0 0 50 0 = 200
  ∧ deriveStride 100 40000 100 500 = 500 := by
  refine ⟨?_, by decide, by decide, by decide⟩
  simp [notify_video_frame, hpeer, deriveStride_eq_claimedStride]

/-- Witness for C1: the amended statement applied at the first concrete
stride example from the spec. -/
theorem notify_video_frame_stride_spec_witness :
    notify_video_frame (some ()) "p" 1 100 100 0 ImageFormat.Raw 40000 =
      .invoked ⟨(), "p", 1 % U32_MOD, 100 % U32_MOD, 100 % U32_MOD,
        claimedStride 100 40000 100 0 % U32_MOD,
        image_format_to_u32 ImageFormat.Raw, 40000⟩
  ∧ deriveStride 100 40000 100 0 = 400
  ∧ deriveStride 0 0 50 0 = 200
  ∧ deriveStride 100 40000 100 500 = 500 :=
  notify_video_frame_stride_spec () "p" 1 100 100 0 40000 ImageFormat.Raw (by decide)

/-- C4: the video-frame dispatch copies the callback out of the read guard
and invokes it with no lock held, but the plugin-event dispatch invokes the
callback while its read guard is still alive, because the guard is an
`if let` scrutinee temporary that is dropped only at the end of the
statement. -/
theorem dispatch_event_invokes_under_read_lock :
    invokesOutsideLock (notify_video_frame_events true true) = true
  ∧ invokesOutsideLock (dispatch_event_events true true) = false
  ∧ notify_video_frame_events true true =
      [.acquireRead, .releaseRead, .invokeCallback]
  ∧ dispatch_event_events true true =
      [.acquireRead, .invokeCallback, .releaseRead] := by
  decide

/-- C5: the pixel-format tag mapping is injective, takes exactly the values
0, 1, 2 on Raw, ABGR, ARGB, and the reverse lookup table round-trips every
format value. -/
theorem image_format_mapping_bijective :
    (∀ a b : ImageFormat, image_format_to_u32 a = image_format_to_u32 b → a = b)
  ∧ image_format_to_u32 .Raw = 0
  ∧ image_format_to_u32 .ABGR = 1
  ∧ image_format_to_u32 .ARGB = 2
  ∧ ∀ f, u32_to_image_format (image_format_to_u32 f) = some f := by
  refine ⟨?_, rfl, rfl, rfl, ?_⟩
  · intro a b h
    cases a <;> cases b <;> simp [image_format_to_u32] at h ⊢
  · intro f
    cases f <;> rfl

/-- Witness for C5: the injectivity implication and the round-trip applied
at concrete formats. -/
theorem image_format_mapping_bijective_witness :
    ImageFormat.ABGR = ImageFormat.ABGR
  ∧ u32_to_image_format (image_format_to_u32 ImageFormat.ARGB) =
      some ImageFormat.ARGB :=
  ⟨image_format_mapping_bijective.1 .ABGR .ABGR rfl,
   image_format_mapping_bijective.2.2.2.2 .ARGB⟩

/-- C6: dispatch through an empty slot is a silent no-op for both callback
kinds, both when the slot was never registered and when a `none`
registration overwrote a previous callback; no invocation happens and no
error outcome is produced. -/
theorem empty_slot_dispatch_noop {κ : Type} (cb : κ)
    (event_type payload peer : String)
    (display width height stride_hint bufLen : Nat) (format : ImageFormat) :
    dispatch_event (none : Option κ) event_type payload = .noCallback
  ∧ notify_video_frame (none : Option κ) peer display width height stride_hint
      format bufLen = .noCallback
  ∧ dispatch_event
      (rustdesk_unity_register_event_callback none
        (rustdesk_unity_register_event_callback (some cb) none))
      event_type payload = .noCallback
  ∧ notify_video_frame
      (rustdesk_unity_register_video_frame_callback none
        (rustdesk_unity_register_video_frame_callback (some cb) none))
      peer display width height stride_hint format bufLen = .noCallback :=
  ⟨rfl, rfl, rfl, rfl⟩

/-- C9: the plugin-framework initialization entry point returns the success
result on every call, for every collaborator init effect and every state:
the path has no failure branch. -/
theorem init_plugin_framework_always_success {σ : Type} (init : σ → σ) (s : σ) :
    (rustdesk_unity_init_plugin_framework init s).2.code = 0
  ∧ (rustdesk_unity_init_plugin_framework init s).2.msg = ""
  ∧ (rustdesk_unity_init_plugin_framework init s).2 = PluginReturn.success :=
  ⟨rfl, rfl, rfl⟩

/-- C10: when the video callback is invoked, display, width, height and the
derived stride are each passed reduced modulo `2 ^ 32` (the `as u32` cast),
while the buffer length is passed unchanged; and the `width * 4` fallback is
a saturating multiplication, so it never exceeds the `usize` maximum and
agrees with plain multiplication whenever that does not overflow. -/
theorem notify_video_frame_u32_truncation (cb : Unit) (peer : String)
    (display width height stride_hint bufLen : Nat) (format : ImageFormat)
    (hpeer : cstring_new peer = some peer) :
    notify_video_frame (some cb) peer display width height stride_hint format bufLen =
      .invoked ⟨cb, peer, display % 2 ^ 32, width % 2 ^ 32, height % 2 ^ 32,
        deriveStride height bufLen width stride_hint % 2 ^ 32,
        image_format_to_u32 format, bufLen⟩
  ∧ (∀ w : Nat, saturatingMul4 w ≤ USIZE_MAX)
  ∧ (∀ w : Nat, w * 4 ≤ USIZE_MAX → saturatingMul4 w = w * 4) := by
  refine ⟨?_, ?_, ?_⟩
  · simp [notify_video_frame, hpeer, U32_MOD]
  · intro w
    exact min_le_right _ _
  · intro w hw
    exact min_eq_left hw

/-- Witness for C10: a display index of `2 ^ 32 + 5` is wrapped to 5 by the
cast. -/
theorem notify_video_frame_u32_truncation_witness :
    notify_video_frame (some ()) "p" (2 ^ 32 + 5) 1 1 0 ImageFormat.Raw 4 =
      .invoked ⟨(), "p", (2 ^ 32 + 5) % 2 ^ 32, 1 % 2 ^ 32, 1 % 2 ^ 32,
        deriveStride 1 4 1 0 % 2 ^ 32, image_format_to_u32 ImageFormat.Raw, 4⟩
  ∧ (∀ w : Nat, saturatingMul4 w ≤ USIZE_MAX)
  ∧ (∀ w : Nat, w * 4 ≤ USIZE_MAX → saturatingMul4 w = w * 4) :=
  notify_video_frame_u32_truncation () "p" (2 ^ 32 + 5) 1 1 0 4 ImageFormat.Raw
    (by decide)

/-- A string with a nonempty left part stays nonempty after appending. -/
theorem string_append_ne_empty (a b : String) (ha : a.length ≠ 0) :
    a ++ b ≠ "" := by
  intro h
  have hlen := congrArg String.length h
  rw [String.length_append] at hlen
  simp at hlen
  omega

/-- Core property of the result encoder: code 0 exactly on collaborator
success, message empty exactly on code 0, and on failure the message is the
context tag, a colon-space separator, and the collaborator error text. -/
theorem dispatch_from_result_spec (r : Except String Unit) (ctx : String) :
    ((dispatch_from_result r ctx).code = 0 ↔ r = .ok ())
  ∧ ((dispatch_from_result r ctx).msg = "" ↔
      (dispatch_from_result r ctx).code = 0)
  ∧ ∀ e, r = .error e →
      (dispatch_from_result r ctx).msg = ctx ++ ": " ++ e := by
  rcases r with e | u
  · have hcode : (dispatch_from_result (Except.error e) ctx).code =
        ERR_CALLBACK_FAILED := rfl
    have hmsg : (dispatch_from_result (Except.error e) ctx).msg =
        ctx ++ ": " ++ e := rfl
    have hne : ctx ++ ": " ++ e ≠ "" := by
      apply string_append_ne_empty
      have h2 : String.length ": " = 2 := rfl
      rw [String.length_append, h2]
      omega
    refine ⟨?_, ?_, ?_⟩
    · rw [hcode]
      exact iff_of_false (by decide) (fun h => Except.noConfusion h)
    · rw [hmsg, hcode]
      exact iff_of_false hne (by decide)
    · intro e' he
      injection he with h
      subst h
      exact hmsg
  · cases u
    refine ⟨?_, ?_, ?_⟩
    · simp [dispatch_from_result, PluginReturn.success]
    · simp [dispatch_from_result, PluginReturn.success]
    · intro e he
      exact absurd he (fun h => Except.noConfusion h)

/-- C2: for every valid id string, each lifecycle entry point returns code 0
exactly when its collaborator succeeds, an empty message exactly when the
code is 0, and on collaborator failure the message is the operation tag
followed by the collaborator error text. -/
theorem lifecycle_result_encoding
    (load unload reload : String → Except String Unit) (s : String) :
    ((rustdesk_unity_load_plugin load (.valid s)).1.code = 0 ↔ load s = .ok ())
  ∧ ((rustdesk_unity_load_plugin load (.valid s)).1.msg = "" ↔
      (rustdesk_unity_load_plugin load (.valid s)).1.code = 0)
  ∧ (∀ e, load s = .error e →
      (rustdesk_unity_load_plugin load (.valid s)).1.msg = "Load plugin: " ++ e)
  ∧ ((rustdesk_unity_unload_plugin unload (.valid s)).1.code = 0 ↔
      unload s = .ok ())
  ∧ ((rustdesk_unity_unload_plugin unload (.valid s)).1.msg = "" ↔
      (rustdesk_unity_unload_plugin unload (.valid s)).1.code = 0)
  ∧ (∀ e, unload s = .error e →
      (rustdesk_unity_unload_plugin unload (.valid s)).1.msg =
        "Unload plugin: " ++ e)
  ∧ ((rustdesk_unity_reload_plugin reload (.valid s)).1.code = 0 ↔
      reload s = .ok ())
  ∧ ((rustdesk_unity_reload_plugin reload (.valid s)).1.msg = "" ↔
      (rustdesk_unity_reload_plugin reload (.valid s)).1.code = 0)
  ∧ (∀ e, reload s = .error e →
      (rustdesk_unity_reload_plugin reload (.valid s)).1.msg =
        "Reload plugin: " ++ e) := by
  have hl := dispatch_from_result_spec (load s) "Load plugin"
  have hu := dispatch_from_result_spec (unload s) "Unload plugin"
  have hr := dispatch_from_result_spec (reload s) "Reload plugin"
  exact ⟨hl.1, hl.2.1, hl.2.2, hu.1, hu.2.1, hu.2.2, hr.1, hr.2.1, hr.2.2⟩

/-- Witness for C2: a failing load reports the tagged message and a
succeeding unload reports code 0. -/
theorem lifecycle_result_encoding_witness :
    (rustdesk_unity_load_plugin (fun _ => Except.error "boom")
      (.valid "pid")).1.msg = "Load plugin: boom"
  ∧ (rustdesk_unity_unload_plugin (fun _ => Except.ok ())
      (.valid "pid")).1.code = 0 := by
  have h := lifecycle_result_encoding (fun _ => Except.error "boom")
    (fun _ => Except.ok ()) (fun _ => Except.ok ()) "pid"
  exact ⟨h.2.2.1 "boom" rfl, h.2.2.2.1.mpr rfl⟩

/-- Decoding the id-peer pair fails whenever either input fails to decode. -/
theorem get_id_and_peer_error (id peer : CStrArg)
    (h : (∃ e, cstr_to_string id = Except.error e) ∨
         (∃ e, cstr_to_string peer = Except.error e)) :
    ∃ e, get_id_and_peer id peer = Except.error e := by
  cases id with
  | null => exact ⟨"null pointer", rfl⟩
  | invalid err => exact ⟨err, rfl⟩
  | valid s =>
    cases peer with
    | null => exact ⟨"null pointer", rfl⟩
    | invalid err => exact ⟨err, rfl⟩
    | valid t =>
      rcases h with ⟨e, he⟩ | ⟨e, he⟩ <;> simp [cstr_to_string] at he

/-- C3: a null or undecodable id makes every lifecycle entry point return
the invalid-argument code with zero collaborator invocations, and a bad id
or peer does the same for both event entry points. -/
theorem invalid_args_fail_fast
    (load unload reload : String → Except String Unit)
    (uiHandler svHandler : String → String → List Nat → Except String Unit)
    (bad id peer : CStrArg) (event : List Nat)
    (hbad : ∃ e, cstr_to_string bad = Except.error e)
    (hpair : (∃ e, cstr_to_string id = Except.error e) ∨
             (∃ e, cstr_to_string peer = Except.error e)) :
    ((rustdesk_unity_load_plugin load bad).1.code = ERR_CALLBACK_INVALID_ARGS
      ∧ (rustdesk_unity_load_plugin load bad).2 = 0)
  ∧ ((rustdesk_unity_unload_plugin unload bad).1.code = ERR_CALLBACK_INVALID_ARGS
      ∧ (rustdesk_unity_unload_plugin unload bad).2 = 0)
  ∧ ((rustdesk_unity_reload_plugin reload bad).1.code = ERR_CALLBACK_INVALID_ARGS
      ∧ (rustdesk_unity_reload_plugin reload bad).2 = 0)
  ∧ ((rustdesk_unity_handle_ui_event uiHandler id peer event).1.code =
        ERR_CALLBACK_INVALID_ARGS
      ∧ (rustdesk_unity_handle_ui_event uiHandler id peer event).2 = 0)
  ∧ ((rustdesk_unity_handle_server_event svHandler id peer event).1.code =
        ERR_CALLBACK_INVALID_ARGS
      ∧ (rustdesk_unity_handle_server_event svHandler id peer event).2 = 0) := by
  obtain ⟨e, he⟩ := hbad
  obtain ⟨e2, he2⟩ := get_id_and_peer_error id peer hpair
  refine ⟨⟨?_, ?_⟩, ⟨?_, ?_⟩, ⟨?_, ?_⟩, ⟨?_, ?_⟩, ⟨?_, ?_⟩⟩ <;>
    simp [rustdesk_unity_load_plugin, rustdesk_unity_unload_plugin,
      rustdesk_unity_reload_plugin, rustdesk_unity_handle_ui_event,
      rustdesk_unity_handle_server_event, he, he2, make_error,
      PluginReturn.new]

/-- Witness for C3: a null lifecycle id and an undecodable event id both
fail fast. -/
theorem invalid_args_fail_fast_witness :
    (rustdesk_unity_load_plugin (fun _ => Except.ok ())
      CStrArg.null).1.code = ERR_CALLBACK_INVALID_ARGS
  ∧ (rustdesk_unity_handle_ui_event (fun _ _ _ => Except.ok ())
      (CStrArg.invalid "bad utf8") (CStrArg.valid "peer") []).2 = 0 := by
  have h := invalid_args_fail_fast (fun _ => Except.ok ())
    (fun _ => Except.ok ()) (fun _ => Except.ok ())
    (fun _ _ _ => Except.ok ()) (fun _ _ _ => Except.ok ())
    CStrArg.null (CStrArg.invalid "bad utf8") (CStrArg.valid "peer") []
    ⟨"null pointer", rfl⟩ (Or.inl ⟨"bad utf8", rfl⟩)
  exact ⟨h.1.1, h.2.2.2.1.2⟩

/-- C7: an unencodable event type drops the plugin-event notification for
every payload, an unencodable payload drops it for every encodable event
type, an unencodable peer id aborts exactly that video dispatch, and a
later frame with an encodable peer id is still delivered. -/
theorem encoding_failure_never_invokes {κ : Type} (cb : κ)
    (event_type payload peer good_peer : String)
    (display width height stride_hint bufLen : Nat) (format : ImageFormat)
    (het : cstring_new event_type = none)
    (hpl : cstring_new payload = none)
    (hpeer : cstring_new peer = none)
    (hgood : cstring_new good_peer = some good_peer) :
    (∀ p, dispatch_event (some cb) event_type p = .droppedBadEventType)
  ∧ (∀ et, cstring_new et = some et →
      dispatch_event (some cb) et payload = .droppedBadPayload)
  ∧ notify_video_frame (some cb) peer display width height stride_hint format
      bufLen = .badPeerId
  ∧ notify_video_frame (some cb) good_peer display width height stride_hint
      format bufLen =
      .invoked ⟨cb, good_peer, display % U32_MOD, width % U32_MOD,
        height % U32_MOD, deriveStride height bufLen width stride_hint % U32_MOD,
        image_format_to_u32 format, bufLen⟩ := by
  refine ⟨?_, ?_, ?_, ?_⟩
  · intro p
    cases hp : cstring_new p <;> simp [dispatch_event, het, hp]
  · intro et hok
    simp [dispatch_event, hok, hpl]
  · simp [notify_video_frame, hpeer]
  · simp [notify_video_frame, hgood]

/-- Witness for C7: concrete NUL-containing strings are dropped while a
clean frame is still invoked. -/
theorem encoding_failure_never_invokes_witness :
    dispatch_event (some ()) "a\x00b" "ok" =
      EventDispatchOutcome.droppedBadEventType
  ∧ dispatch_event (some ()) "tag" "x\x00" =
      EventDispatchOutcome.droppedBadPayload
  ∧ notify_video_frame (some ()) "p\x00" 0 2 2 0 ImageFormat.ABGR 8 =
      VideoDispatchOutcome.badPeerId
  ∧ notify_video_frame (some ()) "p" 0 2 2 0 ImageFormat.ABGR 8 ≠
      VideoDispatchOutcome.badPeerId := by
  have h := encoding_failure_never_invokes () "a\x00b" "x\x00" "p\x00" "p"
    0 2 2 0 8 ImageFormat.ABGR (by decide) (by decide) (by decide) (by decide)
  refine ⟨h.1 "ok", h.2.1 "tag" (by decide), h.2.2.1, ?_⟩
  rw [h.2.2.2]
  simp

/-- C8: the descriptor query returns the literal text for the empty table,
degrades to it when serialization fails, otherwise returns the serialized
payload, and every object of the payload carries exactly the fields desc,
path and uninstalled. -/
theorem get_plugins_spec (infos : List PluginInfo)
    (ser : List (List (String × JsonVal)) → Option String)
    (hser : ser (plugin_payload infos) = none) :
    rustdesk_unity_get_plugins [] (fun p => some (serde_to_string p)) = "[]"
  ∧ rustdesk_unity_get_plugins infos ser = "[]"
  ∧ rustdesk_unity_get_plugins infos (fun p => some (serde_to_string p)) =
      serde_to_string (plugin_payload infos)
  ∧ ∀ fields ∈ plugin_payload infos,
      fields.map Prod.fst = ["desc", "path", "uninstalled"] := by
  refine ⟨rfl, ?_, rfl, ?_⟩
  · simp [rustdesk_unity_get_plugins, hser]
  · intro fields hf
    simp [plugin_payload] at hf
    obtain ⟨info, _, rfl⟩ := hf
    rfl

/-- Witness for C8: a failing serializer on a one-element table yields the
empty-array literal, as does the real serializer on the empty table. -/
theorem get_plugins_spec_witness :
    rustdesk_unity_get_plugins [⟨"d", "path", true⟩] (fun _ => none) = "[]"
  ∧ rustdesk_unity_get_plugins [] (fun p => some (serde_to_string p)) = "[]" := by
  have h := get_plugins_spec [⟨"d", "path", true⟩] (fun _ => none) rfl
  exact ⟨h.2.1, h.1⟩

end RustdeskUnity
